import Mathlib

/-!
Shallow embedding of `app.py` of the line-bot repository — a LINE chat bot
for child language screening.  The embedding covers the age calculator
`calculate_age`, the Google-Sheets question filter `get_questions_by_age`,
and the per-turn message handler `handle_message`, together with theorems
settling the specification's claims about them.

External collaborators are passed in explicitly: the spreadsheet appears as
the value of `sheet.get_all_values()` (an `Option (List (List String))`,
`none` for a failing read) and as a cell lookup function, the language
model behind `chat_with_gpt` appears as a function from prompt text to
reply text, and the current date is an explicit `PyDate` argument (the
source reads `datetime.today()`).
-/

namespace LineBot

/-! ### Strings: Python `in`, `strip`, `split` on lists of characters -/

/-- Whether `pat` is a leading segment of `l` (character-wise). -/
def isPrefixL : List Char → List Char → Bool
  | [], _ => true
  | _ :: _, [] => false
  | a :: as, b :: bs => a = b && isPrefixL as bs

/-- Whether `pat` occurs contiguously inside `l`. -/
def containsL (pat : List Char) : List Char → Bool
  | [] => isPrefixL pat []
  | c :: rest => isPrefixL pat (c :: rest) || containsL pat rest

/-- Python's substring test `pat in hay`. -/
def strIn (pat hay : String) : Bool := containsL pat.toList hay.toList

/-- Python's `str.strip()`: drop whitespace from both ends. -/
def pyStrip (s : String) : String :=
  String.mk ((((s.toList).dropWhile Char.isWhitespace).reverse.dropWhile
    Char.isWhitespace).reverse)

/-- Python's `str.split("-")`: split at every dash, keeping empty pieces. -/
def splitDash : List Char → List (List Char)
  | [] => [[]]
  | c :: rest =>
    let r := splitDash rest
    if c = '-' then [] :: r
    else
      match r with
      | g :: gs => (c :: g) :: gs
      | [] => [[c]]

/-- The token `chat_with_gpt` replies are scanned for in the pass branch. -/
def passTok : String := "符合"

/-- The token scanned for in the (second) fail branch. -/
def failTok : String := "不符合"

/-- The keyword of line 189 returning the user to the main menu. -/
def returnKeyword : String := "返回"

/-- The screening keyword announced by the welcome message of lines 127-134. -/
def screeningKeyword : String := "篩檢"

/-- The dash looked up by `"-" in age_range` on line 153. -/
def dashTok : String := "-"

def noText : String := ""

/-! ### Dates and `calculate_age` (lines 55-80) -/

/-- A calendar date as handled by Python's `datetime.date`. -/
structure PyDate where
  year : Int
  month : Int
  day : Int
deriving DecidableEq

/-- Python `calendar`-style leap-year rule, as used by `datetime`. -/
def isLeapYear (y : Int) : Bool :=
  decide ((y % 4 = 0 ∧ y % 100 ≠ 0) ∨ y % 400 = 0)

/-- Days in a month of the proleptic Gregorian calendar. -/
def daysInMonth (y m : Int) : Int :=
  if m = 2 then (if isLeapYear y then 29 else 28)
  else if m = 4 ∨ m = 6 ∨ m = 9 ∨ m = 11 then 30
  else 31

/-- The dates `datetime.date` can represent (`MINYEAR = 1`, `MAXYEAR = 9999`). -/
def isValidDate (d : PyDate) : Prop :=
  1 ≤ d.year ∧ d.year ≤ 9999 ∧ 1 ≤ d.month ∧ d.month ≤ 12 ∧
    1 ≤ d.day ∧ d.day ≤ daysInMonth d.year d.month

instance (d : PyDate) : Decidable (isValidDate d) := by
  unfold isValidDate; infer_instance

/-- Chronological order on dates (lexicographic on year, month, day). -/
def dateLE (a b : PyDate) : Prop :=
  a.year < b.year ∨ (a.year = b.year ∧
    (a.month < b.month ∨ (a.month = b.month ∧ a.day ≤ b.day)))

instance (a b : PyDate) : Decidable (dateLE a b) := by
  unfold dateLE; infer_instance

/-- Day count of the month before `today`'s month: the source computes
`(today.replace(day=1) - timedelta(days=1)).day` on lines 67-68. -/
def prevMonthDays (today : PyDate) : Int :=
  if today.month = 1 then 31 else daysInMonth today.year (today.month - 1)

/-- Lines 58-78 of `calculate_age`, after a successful parse: calendar-field
subtraction, day and month borrowing, then the 30-day round-up. -/
def calculate_age_months (today birthdate : PyDate) : Int :=
  let years := today.year - birthdate.year
  let months := today.month - birthdate.month
  let days := today.day - birthdate.day
  let months1 := if days < 0 then months - 1 else months
  let days1 := if days < 0 then days + prevMonthDays today else days
  let years1 := if months1 < 0 then years - 1 else years
  let months2 := if months1 < 0 then months1 + 12 else months1
  let total_months := years1 * 12 + months2
  if 30 ≤ days1 then total_months + 1 else total_months

def digitValue (c : Char) : Int := (c.toNat : Int) - 48

def intFromDigits (cs : List Char) : Int :=
  cs.foldl (fun acc c => acc * 10 + digitValue c) 0

/-- One numeric `strptime` field: one to `maxLen` ASCII digits. -/
def parseField (maxLen : Nat) (cs : List Char) : Option Int :=
  if 1 ≤ cs.length ∧ cs.length ≤ maxLen ∧ cs.all Char.isDigit then
    some (intFromDigits cs)
  else none

/-- `datetime.date(y, m, d)`: `some` on a valid date, `none` on `ValueError`. -/
def mkValidDate (y m d : Int) : Option PyDate :=
  if isValidDate ⟨y, m, d⟩ then some ⟨y, m, d⟩ else none

/-- `datetime.strptime(s, "%Y-%m-%d").date()`, with `ValueError` as `none`. -/
def parse_birthdate (s : String) : Option PyDate :=
  match splitDash s.toList with
  | [ys, ms, ds] =>
    match parseField 4 ys, parseField 2 ms, parseField 2 ds with
    | some y, some m, some d => mkValidDate y m d
    | _, _, _ => none
  | _ => none

/-- `calculate_age` of `app.py` (lines 55-80): parse the birthdate string and
return the month count, `none` on `ValueError`.  The current date is an
explicit argument. -/
def calculate_age (today : PyDate) (birthdate_str : String) : Option Int :=
  (parse_birthdate birthdate_str).map (calculate_age_months today)

/-! ### `get_questions_by_age` (lines 142-161) -/

/-- `re.findall(r'\d+', s)` mapped through `int`: the values of the maximal
runs of digits, left to right (the sheet's range texts use ASCII digits).
The second argument carries the value of the digit run in progress. -/
def digitGroupsGo : List Char → Option Int → List Int
  | [], none => []
  | [], some g => [g]
  | c :: rest, none =>
    if c.isDigit then digitGroupsGo rest (some (digitValue c))
    else digitGroupsGo rest none
  | c :: rest, some g =>
    if c.isDigit then digitGroupsGo rest (some (g * 10 + digitValue c))
    else g :: digitGroupsGo rest none

def digitGroups (s : String) : List Int := digitGroupsGo s.toList none

/-- The `for` loop of lines 148-156 over the data rows.  `some` carries the
accumulated question texts; `none` is an uncaught exception inside the loop:
an `IndexError` from `row[0]` or `row[2]` on a short row, or the
`ValueError` from unpacking `map(int, re.findall(...))` into exactly two
names when the digit-group count differs from two. -/
def scanRows (months : Int) : List (List String) → Option (List String)
  | [] => some []
  | row :: rest =>
    match row[0]?, row[2]? with
    | some age_range, some question =>
      if strIn dashTok age_range then
        match digitGroups age_range with
        | [min_age, max_age] =>
          if min_age ≤ months ∧ months ≤ max_age then
            (scanRows months rest).map (fun qs => question :: qs)
          else scanRows months rest
        | _ => none
      else scanRows months rest
    | _, _ => none

/-- `get_questions_by_age` of `app.py` (lines 142-161).  `readResult` is the
outcome of `sheet.get_all_values()` (`none` when the read itself raises);
the `except` clause turns any exception into `None`, and an empty question
list is also returned as `None` (line 158). -/
def get_questions_by_age (readResult : Option (List (List String)))
    (months : Int) : Option (List String) :=
  match readResult with
  | none => none
  | some sheet_data =>
    match scanRows months sheet_data.tail with
    | none => none
    | some questions => if questions.isEmpty then none else some questions

/-- The filter condition of lines 153-155 as a predicate on one row. -/
def rowMatches (months : Int) (row : List String) : Bool :=
  match row[0]? with
  | some age_range =>
    strIn dashTok age_range &&
      (match digitGroups age_range with
       | [min_age, max_age] => decide (min_age ≤ months ∧ months ≤ max_age)
       | _ => false)
  | none => false

/-- The per-row contribution to a successful scan: the question cell of a
row passing the filter of lines 153-155, nothing otherwise. -/
def rowPick (months : Int) (row : List String) : Option String :=
  if rowMatches months row then row[2]? else none

/-- A data row that makes the scan raise `ValueError`: its range text has a
dash but not exactly two digit groups. -/
def badRangeRow (row : List String) : Bool :=
  match row[0]? with
  | some age_range =>
    strIn dashTok age_range && decide ((digitGroups age_range).length ≠ 2)
  | none => false

/-- Positions (0-based, among the data rows) of the rows the filter keeps:
question `i` of a successfully returned list originates from data row
`(matching_row_indices months dataRows).getD i 0`. -/
def matching_row_indices (months : Int) (dataRows : List (List String)) :
    List Nat :=
  (List.range dataRows.length).filter
    (fun i => rowMatches months (dataRows.getD i []))

/-- Spec-side definition, for comparison with the code's addressing: the
1-based sheet row (as `sheet.cell` counts rows) that question `i` of the
filtered list actually came from — its position among the data rows plus
the fixed header-row skip of 2 (1-based addressing plus one header row). -/
def original_sheet_row (sheet_data : List (List String)) (months : Int)
    (i : Nat) : Nat :=
  (matching_row_indices months sheet_data.tail).getD i 0 + 2

/-- The row ordinate `handle_message` passes to `sheet.cell` on lines
210-211 for the criterion and hint of question `current_index`. -/
def criterion_row (current_index : Nat) : Nat := current_index + 2

/-! ### Sessions and `handle_message` (lines 164-241) -/

def MODE_MAIN_MENU : String := "主選單"

def MODE_SCREENING : String := "篩檢模式"

def MODE_TIPS : String := "語言發展建議模式"

def MODE_TREATMENT : String := "語言治療資訊模式"

def MODE_TESTING : String := "進行篩檢"

/-- The three testing keys of a `user_states` entry. -/
structure TestingFields where
  questions : List String
  current_index : Nat
  score : Nat
deriving DecidableEq

/-- One `user_states[user_id]` dictionary: the `mode` key plus the testing
keys when present; the reset value `{"mode": m}` is `⟨m, none⟩`. -/
structure Session where
  mode : String
  testing : Option TestingFields
deriving DecidableEq

def return_menu_text : String := "✅ 已返回主選單。\n\n請選擇功能：\n- 「篩檢」開始語言篩檢\n- 「提升」獲取語言發展建議\n- 「我想治療」獲取語言治療資源"

def summary_entry_text (score : Nat) : String := s!"篩檢結束！\n您的孩子在測驗中的總得分為：{score} 分。\n\n請記住，測驗結果僅供參考，若有疑問請聯絡語言治療師。\n\n輸入「返回」回到主選單。"

def gpt_prompt (question criteria answer : String) : String := s!"根據以下的通過標準，請判斷使用者的回答是否符合標準。\n\n題目：{question}\n通過標準：{criteria}\n使用者回答：{answer}\n請回覆「符合」、「不符合」或「不清楚」。"

def gpt_hint_prompt (hint : String) : String := s!"請基於以下提示，用簡單易懂的語言重新表達：{hint}"

def retry_text (hint_response : String) : String := s!"⚠️ 回答不明確，請再試一次。\n提示：{hint_response}"

def next_question_text (current_index : Nat) (next_question : String) : String := s!"第 {current_index + 1} 題：{next_question}\n\n輸入「返回」可中途退出篩檢。"

def done_text (score : Nat) : String := s!"篩檢完成！您的總得分：{score} 分。\n\n輸入「返回」回到主選單。"

/-- Lines 230-240 (`# 進入下一題`): advance the cursor; the branch that chose
to advance has already settled the score it passes in. -/
def advance_question (questions : List String) (current_index score : Nat) :
    Session × Option String :=
  let current_index := current_index + 1
  if current_index < questions.length then
    (⟨MODE_TESTING, some ⟨questions, current_index, score⟩⟩,
      some (next_question_text current_index (questions.getD current_index noText)))
  else
    (⟨MODE_MAIN_MENU, none⟩, some (done_text score))

/-- `handle_message` of `app.py` (lines 177-241) for one user's turn.
`cell r c` models `sheet.cell(r, c).value`, `oracle` models
`chat_with_gpt`, `sess` the user's `user_states` entry (`none` for a user
the store has not seen, line 183's default), `raw` the inbound text.
Returns the user's new entry and the reply sent — `none` when the function
runs to its end without calling `reply_message` (no branch matched), and
likewise for a Testing entry missing its testing keys (where the source
would raise `KeyError` and send nothing). -/
def handle_message (cell : Nat → Nat → String) (oracle : String → String)
    (sess : Option Session) (raw : String) : Session × Option String :=
  let state := sess.getD ⟨MODE_MAIN_MENU, none⟩
  let user_message := pyStrip raw
  if user_message = returnKeyword then
    (⟨MODE_MAIN_MENU, none⟩, some return_menu_text)
  else if state.mode = MODE_TESTING then
    match state.testing with
    | none => (state, none)
    | some ⟨questions, current_index, score⟩ =>
      if questions.length ≤ current_index then
        (⟨MODE_MAIN_MENU, none⟩, some (summary_entry_text score))
      else
        let current_question := questions.getD current_index noText
        let pass_criteria := cell (criterion_row current_index) 6
        let hint := cell (criterion_row current_index) 5
        let gpt_response := oracle (gpt_prompt current_question pass_criteria user_message)
        if strIn passTok gpt_response then
          advance_question questions current_index (score + 1)
        else if strIn failTok gpt_response then
          advance_question questions current_index score
        else
          let hint_response := oracle (gpt_hint_prompt hint)
          (⟨MODE_TESTING, some ⟨questions, current_index, score⟩⟩,
            some (retry_text hint_response))
  else
    (state, none)

/-! ### Concrete collaborators used by witnesses and counterexamples -/

/-- A spreadsheet whose cells all read as the empty string. -/
def cell0 : Nat → Nat → String := fun _ _ => noText

/-- An oracle that never utters a classification token (every reply is
judged unclear). -/
def oracle0 : String → String := fun _ => noText

/-- An oracle that always answers with the pass token. -/
def oraclePass : String → String := fun _ => passTok

/-- The mode-only MainMenu entry `{"mode": 主選單}`. -/
def mainMenuSession : Session := ⟨MODE_MAIN_MENU, none⟩

def helloMsg : String := "哈囉"

def ansRaw : String := "會"

def returnRaw : String := " 返回 "

def qs3 : List String := ["題甲", "題乙", "題丙"]

/-! ### Helper lemmas -/

lemma containsL_of_isPrefixL (p l : List Char) (h : isPrefixL p l = true) :
    containsL p l = true := by
  cases l with
  | nil => simpa [containsL] using h
  | cons c rest => simp [containsL, h]

lemma containsL_cons (a : Char) (p l : List Char)
    (h : containsL (a :: p) l = true) : containsL p l = true := by
  induction l with
  | nil => simp [containsL, isPrefixL] at h
  | cons c rest ih =>
    simp only [containsL, Bool.or_eq_true] at h ⊢
    rcases h with h | h
    · simp only [isPrefixL, Bool.and_eq_true] at h
      exact Or.inr (containsL_of_isPrefixL p rest h.2)
    · exact Or.inr (ih h)

/-- Any reply containing 「不符合」 contains 「符合」: the fail token is the
pass token preceded by one character. -/
lemma strIn_passTok_of_failTok (s : String) (h : strIn failTok s = true) :
    strIn passTok s = true := by
  unfold strIn at h ⊢
  have hsplit : failTok.toList = '不' :: passTok.toList := rfl
  rw [hsplit] at h
  exact containsL_cons _ _ _ h

/-- Evaluation of a Testing turn on a live question: the handler reduces to
the three-way branch on the oracle's classification reply. -/
lemma handle_message_testing_eval (cell : Nat → Nat → String)
    (oracle : String → String) (questions : List String)
    (current_index score : Nat) (raw : String)
    (hret : pyStrip raw ≠ returnKeyword)
    (hidx : current_index < questions.length) :
    handle_message cell oracle
        (some ⟨MODE_TESTING, some ⟨questions, current_index, score⟩⟩) raw
      = (if strIn passTok (oracle (gpt_prompt (questions.getD current_index noText)
            (cell (criterion_row current_index) 6) (pyStrip raw))) then
          advance_question questions current_index (score + 1)
        else if strIn failTok (oracle (gpt_prompt (questions.getD current_index noText)
            (cell (criterion_row current_index) 6) (pyStrip raw))) then
          advance_question questions current_index score
        else
          (⟨MODE_TESTING, some ⟨questions, current_index, score⟩⟩,
            some (retry_text (oracle (gpt_hint_prompt (cell (criterion_row current_index) 5)))))) := by
  unfold handle_message
  dsimp only [Option.getD_some]
  rw [if_neg hret, if_pos rfl, if_neg (not_le.mpr hidx)]

/-- Evaluation of `advance_question` when a further question remains. -/
lemma advance_question_continue (questions : List String)
    (current_index score : Nat) (h : current_index + 1 < questions.length) :
    advance_question questions current_index score
      = (⟨MODE_TESTING, some ⟨questions, current_index + 1, score⟩⟩,
        some (next_question_text (current_index + 1)
          (questions.getD (current_index + 1) noText))) := by
  unfold advance_question
  rw [if_pos h]

/-- Evaluation of `advance_question` when the advance reaches the end. -/
lemma advance_question_done (questions : List String)
    (current_index score : Nat) (h : current_index + 1 = questions.length) :
    advance_question questions current_index score
      = (⟨MODE_MAIN_MENU, none⟩, some (done_text score)) := by
  unfold advance_question
  rw [if_neg (by omega)]

/-! ### Claim theorems -/

/-- C1: the claimed MainMenu → Testing transition on the screening keyword
does not exist in the code.  `handle_message` has no MainMenu dispatch at
all: sending 「篩檢」 from MainMenu leaves the session entry unchanged,
never calls `get_questions_by_age`, never enters Testing mode, and sends
no reply — although the bot's own welcome message promises that 「篩檢」
starts the test. -/
theorem C1_screening_keyword_ignored :
    handle_message cell0 oracle0 (some mainMenuSession) screeningKeyword
      = (mainMenuSession, none) := by decide

/-- C2: the one-reply-per-message contract is violated.  A MainMenu session
(the default state of every user) sending any text other than 「返回」 gets
zero replies: the handler falls through every branch and returns without
calling `reply_message`, both for a known user and for a first contact —
although the welcome message promises the menu would be re-sent. -/
theorem C2_zero_replies_on_unrecognized :
    handle_message cell0 oracle0 (some mainMenuSession) helloMsg
        = (mainMenuSession, none)
      ∧ handle_message cell0 oracle0 none helloMsg = (mainMenuSession, none) := by
  decide

/-- C3: one Testing turn on a live question (`current_index <
len(questions)`), by classification branch.  The pass branch stores
`score + 1` and `current_index + 1` (when the advance reaches the end of
the list it instead resets to MainMenu and the completion reply shows
`score + 1`); the fail branch stores the same cursor advance with the
score unchanged; the unclear branch leaves the session entry exactly as it
was — so the same question is judged on the next message — and replies
with the rephrased-hint retry text. -/
theorem C3_testing_turn (cell : Nat → Nat → String) (oracle : String → String)
    (questions : List String) (current_index score : Nat) (raw : String)
    (hret : pyStrip raw ≠ returnKeyword)
    (hidx : current_index < questions.length) :
    (strIn passTok (oracle (gpt_prompt (questions.getD current_index noText)
        (cell (criterion_row current_index) 6) (pyStrip raw))) = true →
      (current_index + 1 < questions.length →
        (handle_message cell oracle
            (some ⟨MODE_TESTING, some ⟨questions, current_index, score⟩⟩) raw).1
          = ⟨MODE_TESTING, some ⟨questions, current_index + 1, score + 1⟩⟩)
      ∧ (current_index + 1 = questions.length →
        handle_message cell oracle
            (some ⟨MODE_TESTING, some ⟨questions, current_index, score⟩⟩) raw
          = (⟨MODE_MAIN_MENU, none⟩, some (done_text (score + 1)))))
    ∧ (strIn passTok (oracle (gpt_prompt (questions.getD current_index noText)
        (cell (criterion_row current_index) 6) (pyStrip raw))) = false →
       strIn failTok (oracle (gpt_prompt (questions.getD current_index noText)
        (cell (criterion_row current_index) 6) (pyStrip raw))) = true →
      (current_index + 1 < questions.length →
        (handle_message cell oracle
            (some ⟨MODE_TESTING, some ⟨questions, current_index, score⟩⟩) raw).1
          = ⟨MODE_TESTING, some ⟨questions, current_index + 1, score⟩⟩)
      ∧ (current_index + 1 = questions.length →
        handle_message cell oracle
            (some ⟨MODE_TESTING, some ⟨questions, current_index, score⟩⟩) raw
          = (⟨MODE_MAIN_MENU, none⟩, some (done_text score))))
    ∧ (strIn passTok (oracle (gpt_prompt (questions.getD current_index noText)
        (cell (criterion_row current_index) 6) (pyStrip raw))) = false →
       strIn failTok (oracle (gpt_prompt (questions.getD current_index noText)
        (cell (criterion_row current_index) 6) (pyStrip raw))) = false →
      handle_message cell oracle
          (some ⟨MODE_TESTING, some ⟨questions, current_index, score⟩⟩) raw
        = (⟨MODE_TESTING, some ⟨questions, current_index, score⟩⟩,
          some (retry_text (oracle (gpt_hint_prompt (cell (criterion_row current_index) 5)))))) := by
  rw [handle_message_testing_eval cell oracle questions current_index score raw hret hidx]
  refine ⟨fun hp => ?_, fun hp hf => ?_, fun hp hf => ?_⟩
  · rw [if_pos hp]
    exact ⟨fun h => by rw [advance_question_continue questions current_index (score + 1) h],
      fun h => advance_question_done questions current_index (score + 1) h⟩
  · rw [if_neg (by rw [hp]; simp), if_pos hf]
    exact ⟨fun h => by rw [advance_question_continue questions current_index score h],
      fun h => advance_question_done questions current_index score h⟩
  · rw [if_neg (by rw [hp]; simp), if_neg (by rw [hf]; simp)]

/-- Witness for C3 at a concrete input: three questions, index 0, score 0,
an always-pass oracle: the stored entry advances to index 1, score 1. -/
theorem C3_witness :
    (handle_message cell0 oraclePass
        (some ⟨MODE_TESTING, some ⟨qs3, 0, 0⟩⟩) ansRaw).1
      = ⟨MODE_TESTING, some ⟨qs3, 1, 1⟩⟩ := by
  have h := C3_testing_turn cell0 oraclePass qs3 0 0 ansRaw (by decide) (by decide)
  exact (h.1 (by decide)).1 (by decide)

/-- C4: the fail branch of the Testing loop is dead code.  Any oracle reply
containing 「不符合」 also contains 「符合」 and is claimed by the pass check
first, so a Testing turn on a live question either takes the pass branch —
score incremented, cursor advanced — or the unclear retry branch; a cursor
advance without a score change never occurs. -/
theorem C4_fail_branch_dead :
    (∀ s : String, strIn failTok s = true → strIn passTok s = true)
    ∧ ∀ (cell : Nat → Nat → String) (oracle : String → String)
        (questions : List String) (current_index score : Nat) (raw : String),
        pyStrip raw ≠ returnKeyword → current_index < questions.length →
        (handle_message cell oracle
            (some ⟨MODE_TESTING, some ⟨questions, current_index, score⟩⟩) raw
          = advance_question questions current_index (score + 1)
        ∨ handle_message cell oracle
            (some ⟨MODE_TESTING, some ⟨questions, current_index, score⟩⟩) raw
          = (⟨MODE_TESTING, some ⟨questions, current_index, score⟩⟩,
            some (retry_text (oracle (gpt_hint_prompt (cell (criterion_row current_index) 5)))))) := by
  refine ⟨strIn_passTok_of_failTok, ?_⟩
  intro cell oracle questions current_index score raw hret hidx
  rw [handle_message_testing_eval cell oracle questions current_index score raw hret hidx]
  by_cases hp : strIn passTok (oracle (gpt_prompt (questions.getD current_index noText)
      (cell (criterion_row current_index) 6) (pyStrip raw))) = true
  · rw [if_pos hp]
    exact Or.inl rfl
  · have hf : ¬ strIn failTok (oracle (gpt_prompt (questions.getD current_index noText)
        (cell (criterion_row current_index) 6) (pyStrip raw))) = true :=
      fun h => hp (strIn_passTok_of_failTok _ h)
    rw [if_neg hp, if_neg hf]
    exact Or.inr rfl

/-- Witness for C4 at concrete inputs: a reply wrapping 「不符合」 passes the
pass check, and a concrete Testing turn lands in the stated disjunction. -/
theorem C4_witness :
    strIn passTok "我覺得不符合喔" = true
      ∧ (handle_message cell0 oraclePass
            (some ⟨MODE_TESTING, some ⟨qs3, 0, 0⟩⟩) ansRaw
          = advance_question qs3 0 1
        ∨ handle_message cell0 oraclePass
            (some ⟨MODE_TESTING, some ⟨qs3, 0, 0⟩⟩) ansRaw
          = (⟨MODE_TESTING, some ⟨qs3, 0, 0⟩⟩,
            some (retry_text (oraclePass (gpt_hint_prompt (cell0 (criterion_row 0) 5)))))) :=
  ⟨C4_fail_branch_dead.1 "我覺得不符合喔" (by decide),
    C4_fail_branch_dead.2 cell0 oraclePass qs3 0 0 ansRaw (by decide) (by decide)⟩

/-- C7: 「返回」 (after whitespace strip) from any session state — any mode,
any testing fields, or a brand-new user — resets the entry to exactly the
mode-only MainMenu dictionary and replies with the main-menu text. -/
theorem C7_return_resets (cell : Nat → Nat → String) (oracle : String → String)
    (sess : Option Session) (raw : String) (h : pyStrip raw = returnKeyword) :
    handle_message cell oracle sess raw
      = (⟨MODE_MAIN_MENU, none⟩, some return_menu_text) := by
  unfold handle_message
  rw [if_pos h]

/-- Witness for C7 at a concrete input: a padded 「 返回 」 sent from a
mid-run Testing session discards the questions, cursor and score. -/
theorem C7_witness :
    handle_message cell0 oracle0
        (some ⟨MODE_TESTING, some ⟨qs3, 1, 1⟩⟩) returnRaw
      = (⟨MODE_MAIN_MENU, none⟩, some return_menu_text) :=
  C7_return_resets cell0 oracle0 (some ⟨MODE_TESTING, some ⟨qs3, 1, 1⟩⟩)
    returnRaw (by decide)

/-- A sheet whose first data row does not cover age 10 while the second
does: header, then range 0-3, then range 9-12. -/
def sheetC5 : List (List String) :=
  [["年齡", "", "題目", "", "提示", "通過標準"],
   ["0-3", "", "問題一", "", "提示一", "標準一"],
   ["9-12", "", "問題二", "", "提示二", "標準二"]]

/-- The cell lookup backed by `sheetC5`, with `sheet.cell`'s 1-based
addressing. -/
def cellC5 : Nat → Nat → String := fun r c =>
  (sheetC5.getD (r - 1) []).getD (c - 1) noText

/-- C5: the lazy criterion/hint fetch addresses row `current_index + 2` —
the question's position in the *filtered* list plus the header skip — not
the question's own sheet row.  With a non-matching data row before the
matching one, question 0 of the age-10 list comes from sheet row 3, yet
the handler reads its pass criterion and hint from sheet row 2, the cells
of a question that is not even part of the run. -/
theorem C5_lazy_fetch_wrong_row :
    get_questions_by_age (some sheetC5) 10 = some ["問題二"]
      ∧ original_sheet_row sheetC5 10 0 = 3
      ∧ criterion_row 0 = 2
      ∧ criterion_row 0 ≠ original_sheet_row sheetC5 10 0
      ∧ cellC5 (criterion_row 0) 6 = "標準一"
      ∧ cellC5 (original_sheet_row sheetC5 10 0) 6 = "標準二" := by
  decide

/-- C6 counterexample: with a single-question Testing session at index 0, a
passing answer makes the very same turn emit the completion summary and
reset the mode to MainMenu — the summary is not deferred to the next
inbound message, and no session with `currentIndex = len(questions)` is
ever stored. -/
theorem C6_counterexample :
    handle_message cell0 oraclePass
        (some ⟨MODE_TESTING, some ⟨["問題一"], 0, 0⟩⟩) ansRaw
      = (⟨MODE_MAIN_MENU, none⟩, some (done_text 1)) := by decide

/-- C6 amended: the final summary is emitted and the mode reset to MainMenu
immediately on the turn whose pass or fail advance makes the cursor reach
`len(questions)`; a Testing turn *entered* with the cursor already at or
past the end — a state the normal flow never stores — would also emit a
(differently worded) summary and reset. -/
theorem C6_summary_immediate (cell : Nat → Nat → String)
    (oracle : String → String) (questions : List String)
    (current_index score : Nat) (raw : String)
    (hret : pyStrip raw ≠ returnKeyword) :
    (current_index + 1 = questions.length →
      strIn passTok (oracle (gpt_prompt (questions.getD current_index noText)
        (cell (criterion_row current_index) 6) (pyStrip raw))) = true →
      handle_message cell oracle
          (some ⟨MODE_TESTING, some ⟨questions, current_index, score⟩⟩) raw
        = (⟨MODE_MAIN_MENU, none⟩, some (done_text (score + 1))))
    ∧ (current_index + 1 = questions.length →
      strIn passTok (oracle (gpt_prompt (questions.getD current_index noText)
        (cell (criterion_row current_index) 6) (pyStrip raw))) = false →
      strIn failTok (oracle (gpt_prompt (questions.getD current_index noText)
        (cell (criterion_row current_index) 6) (pyStrip raw))) = true →
      handle_message cell oracle
          (some ⟨MODE_TESTING, some ⟨questions, current_index, score⟩⟩) raw
        = (⟨MODE_MAIN_MENU, none⟩, some (done_text score)))
    ∧ (questions.length ≤ current_index →
      handle_message cell oracle
          (some ⟨MODE_TESTING, some ⟨questions, current_index, score⟩⟩) raw
        = (⟨MODE_MAIN_MENU, none⟩, some (summary_entry_text score))) := by
  refine ⟨fun hlen hp => ?_, fun hlen hp hf => ?_, fun hge => ?_⟩
  · rw [handle_message_testing_eval cell oracle questions current_index score raw hret (by omega)]
    rw [if_pos hp]
    exact advance_question_done questions current_index (score + 1) hlen
  · rw [handle_message_testing_eval cell oracle questions current_index score raw hret (by omega)]
    rw [if_neg (by rw [hp]; simp), if_pos hf]
    exact advance_question_done questions current_index score hlen
  · unfold handle_message
    dsimp only [Option.getD_some]
    rw [if_neg hret, if_pos rfl, if_pos hge]

/-- Witness for the amended C6 at a concrete input: a Testing entry whose
cursor already equals the list length summarizes and resets on entry. -/
theorem C6_witness :
    handle_message cell0 oracle0
        (some ⟨MODE_TESTING, some ⟨qs3, 3, 2⟩⟩) ansRaw
      = (⟨MODE_MAIN_MENU, none⟩, some (summary_entry_text 2)) :=
  (C6_summary_immediate cell0 oracle0 qs3 3 2 ansRaw (by decide)).2.2 (by decide)

/-- Evaluation of `rowPick` on a row whose range text has a dash and
exactly two digit runs. -/
lemma rowPick_two (months : Int) (row : List String) (age_range : String)
    (a b : Int) (h0 : row[0]? = some age_range)
    (hg : digitGroups age_range = [a, b]) (hd : strIn dashTok age_range = true) :
    rowPick months row = (if a ≤ months ∧ months ≤ b then row[2]? else none) := by
  unfold rowPick rowMatches
  rw [h0]
  dsimp only
  rw [hg, hd]
  by_cases hr : a ≤ months ∧ months ≤ b
  · rw [if_pos hr]
    simp [hr]
  · rw [if_neg hr]
    simp [hr]

/-- A row without a dash in its range text is never picked. -/
lemma rowPick_nodash (months : Int) (row : List String) (age_range : String)
    (h0 : row[0]? = some age_range) (hd : ¬ strIn dashTok age_range = true) :
    rowPick months row = none := by
  unfold rowPick rowMatches
  rw [h0]
  dsimp only
  simp [hd]

/-- A successful scan returns exactly the question cells of the rows that
pass the filter, in storage order. -/
lemma scanRows_eq_filterMap (months : Int) (rows : List (List String)) :
    ∀ l, scanRows months rows = some l → l = rows.filterMap (rowPick months) := by
  induction rows with
  | nil =>
    intro l h
    simp only [scanRows, Option.some.injEq] at h
    simp [h.symm]
  | cons row rest ih =>
    intro l h
    rw [scanRows] at h
    split at h
    next age_range question h0 h2 =>
      by_cases hd : strIn dashTok age_range
      · rw [if_pos hd] at h
        split at h
        next a b hg =>
          by_cases hr : a ≤ months ∧ months ≤ b
          · rw [if_pos hr] at h
            cases hrest : scanRows months rest with
            | none => rw [hrest] at h; cases h
            | some l2 =>
              rw [hrest] at h
              simp only [Option.map_some', Option.some.injEq] at h
              subst h
              rw [List.filterMap_cons_some
                (by rw [rowPick_two months row age_range a b h0 hg hd, if_pos hr, h2])]
              rw [ih l2 hrest]
          · rw [if_neg hr] at h
            rw [List.filterMap_cons_none
              (by rw [rowPick_two months row age_range a b h0 hg hd, if_neg hr])]
            exact ih l h
        next hg => cases h
      · rw [if_neg hd] at h
        rw [List.filterMap_cons_none (rowPick_nodash months row age_range h0 hd)]
        exact ih l h
    next h0 h2 => cases h

/-- C9: the filter contract of `get_questions_by_age`.  A successful result
lists exactly the question cells (`row[2]`) of the data rows — the header
row excluded — whose range text has a dash and parses to `min ≤ months ≤
max`, in original row order, so a row without a dash never contributes; a
failed read yields `None`; when no data row passes the filter the result
is `None`; and `some []` is never returned. -/
theorem C9_filter_contract (readResult : Option (List (List String)))
    (months : Int) :
    (∀ qs, get_questions_by_age readResult months = some qs →
      ∃ sheet_data, readResult = some sheet_data
        ∧ qs = sheet_data.tail.filterMap (rowPick months) ∧ qs ≠ [])
    ∧ (readResult = none → get_questions_by_age readResult months = none)
    ∧ (∀ sheet_data, readResult = some sheet_data →
        sheet_data.tail.filterMap (rowPick months) = [] →
        get_questions_by_age readResult months = none) := by
  refine ⟨fun qs h => ?_, fun h => by rw [h]; rfl, fun sheet_data h hempty => ?_⟩
  · cases readResult with
    | none => cases h
    | some sheet_data =>
      refine ⟨sheet_data, rfl, ?_⟩
      rw [get_questions_by_age] at h
      cases hscan : scanRows months sheet_data.tail with
      | none => rw [hscan] at h; cases h
      | some l =>
        rw [hscan] at h
        dsimp only at h
        by_cases hl : l.isEmpty
        · rw [if_pos hl] at h; cases h
        · rw [if_neg hl] at h
          cases h
          exact ⟨scanRows_eq_filterMap months sheet_data.tail qs hscan,
            fun hnil => hl (by simp [hnil])⟩
  · subst h
    rw [get_questions_by_age]
    cases hscan : scanRows months sheet_data.tail with
    | none => rfl
    | some l =>
      have := scanRows_eq_filterMap months sheet_data.tail l hscan
      rw [hempty] at this
      subst this
      rfl

/-- Witness for C9 at concrete inputs: on `sheetC5`, age 10 returns the one
matching row's question, and age 100 (matching no row) returns `None`. -/
theorem C9_witness :
    (∃ sheet_data, (some sheetC5 : Option (List (List String))) = some sheet_data
      ∧ ["問題二"] = sheet_data.tail.filterMap (rowPick 10) ∧ ["問題二"] ≠ ([] : List String))
    ∧ get_questions_by_age (some sheetC5) 100 = none :=
  ⟨(C9_filter_contract (some sheetC5) 10).1 ["問題二"] (by decide),
    (C9_filter_contract (some sheetC5) 100).2.2 sheetC5 rfl (by decide)⟩

/-- One data row whose range text has a dash but not exactly two digit runs
aborts the whole scan with `ValueError`. -/
lemma scanRows_none_of_badRangeRow (months : Int) (rows : List (List String))
    (h : ∃ row ∈ rows, badRangeRow row = true) :
    scanRows months rows = none := by
  induction rows with
  | nil => simp at h
  | cons row rest ih =>
    rcases h with ⟨r, hr, hbad⟩
    rw [scanRows]
    split
    next age_range question h0 h2 =>
      rcases List.mem_cons.mp hr with heq | hmem
      · subst heq
        unfold badRangeRow at hbad
        rw [h0] at hbad
        dsimp only at hbad
        simp only [Bool.and_eq_true, decide_eq_true_eq] at hbad
        rw [if_pos hbad.1]
        split
        next a b hg => exact absurd (by rw [hg]; rfl) hbad.2
        next hg => rfl
      · have hrest := ih ⟨r, hmem, hbad⟩
        by_cases hd : strIn dashTok age_range
        · rw [if_pos hd]
          split
          next a b hg =>
            by_cases hrange : a ≤ months ∧ months ≤ b
            · rw [if_pos hrange, hrest]
              rfl
            · rw [if_neg hrange]
              exact hrest
          next hg => rfl
        · rw [if_neg hd]
          exact hrest
    next h0 h2 => rfl

/-- C10: if any scanned data row's range text contains a dash but not
exactly two digit runs, `get_questions_by_age` returns `None` for every
queried month value, even when other rows match: the unpacking
`ValueError` aborts the whole scan and the catch-all `except` swallows it,
rather than skipping only the malformed row. -/
theorem C10_bad_row_aborts (sheet_data : List (List String)) (months : Int)
    (h : ∃ row ∈ sheet_data.tail, badRangeRow row = true) :
    get_questions_by_age (some sheet_data) months = none := by
  rw [get_questions_by_age, scanRows_none_of_badRangeRow months sheet_data.tail h]

/-- A sheet with a matching 9-12 row followed by a malformed range
`3-4-5`. -/
def sheetC10 : List (List String) :=
  [["年齡", "", "題目", "", "提示", "通過標準"],
   ["9-12", "", "問題二", "", "提示二", "標準二"],
   ["3-4-5", "", "問題三", "", "提示三", "標準三"]]

/-- Witness for C10 at a concrete input: the malformed `3-4-5` row makes the
age-10 lookup fail even though the `9-12` row matches. -/
theorem C10_witness :
    get_questions_by_age (some sheetC10) 10 = none :=
  C10_bad_row_aborts sheetC10 10 (by decide)

lemma daysInMonth_bounds (y m : Int) :
    28 ≤ daysInMonth y m ∧ daysInMonth y m ≤ 31 := by
  unfold daysInMonth
  split_ifs <;> norm_num

lemma prevMonthDays_bounds (t : PyDate) :
    28 ≤ prevMonthDays t ∧ prevMonthDays t ≤ 31 := by
  unfold prevMonthDays
  split_ifs
  · norm_num
  · exact daysInMonth_bounds t.year (t.month - 1)

lemma valid_bounds (d : PyDate) (h : isValidDate d) :
    1 ≤ d.month ∧ d.month ≤ 12 ∧ 1 ≤ d.day ∧ d.day ≤ 31 := by
  obtain ⟨h1, h2, h3, h4, h5, h6⟩ := h
  exact ⟨h3, h4, h5, le_trans h6 (daysInMonth_bounds d.year d.month).2⟩

/-- For a birthdate not after the current date the month count is
non-negative. -/
lemma calculate_age_months_nonneg (t b : PyDate) (ht : isValidDate t)
    (hb : isValidDate b) (hle : dateLE b t) :
    0 ≤ calculate_age_months t b := by
  obtain ⟨htm1, htm2, htd1, htd2⟩ := valid_bounds t ht
  obtain ⟨hbm1, hbm2, hbd1, hbd2⟩ := valid_bounds b hb
  obtain ⟨hp1, hp2⟩ := prevMonthDays_bounds t
  unfold dateLE at hle
  simp only [calculate_age_months]
  set P := prevMonthDays t with hP
  split_ifs <;> omega

/-- Moving the birthdate earlier (the current date held fixed) never
decreases the month count. -/
lemma calculate_age_months_monotone (t b1 b2 : PyDate) (ht : isValidDate t)
    (h1 : isValidDate b1) (h2 : isValidDate b2) (hle : dateLE b1 b2) :
    calculate_age_months t b2 ≤ calculate_age_months t b1 := by
  obtain ⟨htm1, htm2, htd1, htd2⟩ := valid_bounds t ht
  obtain ⟨hm1, hm2, hd1, hd2⟩ := valid_bounds b1 h1
  obtain ⟨hn1, hn2, he1, he2⟩ := valid_bounds b2 h2
  obtain ⟨hp1, hp2⟩ := prevMonthDays_bounds t
  unfold dateLE at hle
  simp only [calculate_age_months]
  set P := prevMonthDays t with hP
  split_ifs <;> omega

/-- A successful parse yields a valid calendar date. -/
lemma parse_birthdate_valid (s : String) (b : PyDate)
    (h : parse_birthdate s = some b) : isValidDate b := by
  unfold parse_birthdate at h
  split at h
  next ys ms ds =>
    split at h
    next y m d =>
      unfold mkValidDate at h
      split at h
      next hv =>
        cases h
        exact hv
      next => cases h
    next => cases h
  next => cases h

def farFuture : String := "9999-12-31"

def todayRef : PyDate := ⟨2024, 7, 1⟩

/-- C8 counterexample: non-negativity fails as stated.  The string
9999-12-31 parses as a valid `YYYY-MM-DD` calendar date, yet with the
current date 2024-07-01 the code returns the negative month count -95706
(nothing in `calculate_age` restricts the birthdate to the past). -/
theorem C8_counterexample :
    isValidDate todayRef
      ∧ parse_birthdate farFuture = some ⟨9999, 12, 31⟩
      ∧ calculate_age todayRef farFuture = some (-95706)
      ∧ (-95706 : Int) < 0 := by decide

/-- C8 amended: for every birthdate string parsing as a valid `YYYY-MM-DD`
date, `calculate_age` returns the month count of the parsed date; that
count is non-negative whenever the birthdate is not after the (valid)
current date; and, the current date held fixed, moving the birthdate
earlier never decreases the count (with no past-date restriction). -/
theorem C8_nonneg_and_monotone (today b1 b2 : PyDate) (s1 s2 : String)
    (ht : isValidDate today) (h1 : parse_birthdate s1 = some b1)
    (h2 : parse_birthdate s2 = some b2) :
    calculate_age today s1 = some (calculate_age_months today b1)
      ∧ (dateLE b1 today → 0 ≤ calculate_age_months today b1)
      ∧ (dateLE b1 b2 → calculate_age_months today b2 ≤ calculate_age_months today b1) := by
  refine ⟨by rw [calculate_age, h1]; rfl, fun hle => ?_, fun hle => ?_⟩
  · exact calculate_age_months_nonneg today b1 ht (parse_birthdate_valid s1 b1 h1) hle
  · exact calculate_age_months_monotone today b1 b2 ht
      (parse_birthdate_valid s1 b1 h1) (parse_birthdate_valid s2 b2 h2) hle

def birthJan : String := "2024-01-01"

def birthFeb : String := "2024-02-01"

/-- Witness for the amended C8 at concrete inputs: on 2024-07-01, the
2024-01-01 birthdate yields a non-negative count, and the earlier of the
two birthdates yields at least the count of the later one. -/
theorem C8_witness :
    calculate_age todayRef birthJan = some (calculate_age_months todayRef ⟨2024, 1, 1⟩)
      ∧ 0 ≤ calculate_age_months todayRef ⟨2024, 1, 1⟩
      ∧ calculate_age_months todayRef ⟨2024, 2, 1⟩ ≤ calculate_age_months todayRef ⟨2024, 1, 1⟩ := by
  have h := C8_nonneg_and_monotone todayRef ⟨2024, 1, 1⟩ ⟨2024, 2, 1⟩ birthJan
    birthFeb (by decide) (by decide) (by decide)
  exact ⟨h.1, h.2.1 (by decide), h.2.2 (by decide)⟩

end LineBot
